import Mathlib

/-!
Formal model of the kanban dashboard backend (file server_ws.py):
task, agent, note and live-feed operations, with theorems checking the
stated specification properties against the code.

JSON records are modelled as structures whose optional fields are
`Option String` (a missing key is `none`); `dict.update` becomes a
field-by-field merge where a key present in the body replaces the stored
value.  Timestamps are the ISO strings the server produces, compared
lexicographically exactly as the Python code compares them.
-/

namespace ServerWs

/-- Lexicographic comparison of character lists by code point, the order
Python uses on `str`. -/
def charListLt : List Char → List Char → Bool
  | [], [] => false
  | [], _ :: _ => true
  | _ :: _, [] => false
  | a :: as, b :: bs =>
    if a.val < b.val then true
    else if b.val < a.val then false
    else charListLt as bs

/-- Python `a < b` on strings. -/
def pyStrLt (a b : String) : Bool := charListLt a.data b.data

/-- Python `a >= b` on strings. -/
def pyStrGe (a b : String) : Bool := !(pyStrLt a b)

/-- Python `a <= b` on strings. -/
def pyStrLe (a b : String) : Bool := !(pyStrLt b a)

/-- Whether the first list is an initial segment of the second. -/
def charListIsInit : List Char → List Char → Bool
  | [], _ => true
  | _ :: _, [] => false
  | a :: as, b :: bs => a = b && charListIsInit as bs

/-- Python `s.startswith(p)`. -/
def pyStartsWith (s p : String) : Bool := charListIsInit p.data s.data

/-- Python truthiness of an optional string field: a missing key (`None`)
or an empty string is falsy. -/
def isFalsyOpt : Option String → Bool
  | none => true
  | some s => decide (s = "")

/-- Dict-merge of one field: a key present in the update body replaces the
stored value, a missing key leaves it unchanged. -/
def mergeOpt (b old : Option String) : Option String :=
  match b with
  | some v => some v
  | none => old

/-- A task record, with the fields read or written by the handlers in
server_ws.py.  `id` is always present on server-created tasks. -/
structure Task where
  id : String
  status : Option String := none
  startedAt : Option String := none
  completedAt : Option String := none
  createdAt : Option String := none
  completedBy : Option String := none
  title : Option String := none
  assignedTo : Option String := none
deriving DecidableEq

/-- A JSON request body for task creation or partial update: every field
is optional, and fields supplied by the caller are merged into the stored
record (`task.update(body)` / the `**body` spread in `create_task_handler`). -/
structure Body where
  id : Option String := none
  status : Option String := none
  startedAt : Option String := none
  completedAt : Option String := none
  createdAt : Option String := none
  completedBy : Option String := none
  title : Option String := none
  assignedTo : Option String := none
deriving DecidableEq

/-- `task.update(body)`: every key present in the body replaces the stored
field. -/
def Task.applyBody (t : Task) (b : Body) : Task :=
  { id := (b.id).getD t.id,
    status := mergeOpt b.status t.status,
    startedAt := mergeOpt b.startedAt t.startedAt,
    completedAt := mergeOpt b.completedAt t.completedAt,
    createdAt := mergeOpt b.createdAt t.createdAt,
    completedBy := mergeOpt b.completedBy t.completedBy,
    title := mergeOpt b.title t.title,
    assignedTo := mergeOpt b.assignedTo t.assignedTo }

/-- The timestamp bookkeeping of `update_task_handler` (lines 204-208):
when the body carries a truthy status different from the stored one, the
body is augmented with `startedAt := now` on a first transition into
in-progress, or with `completedAt := now` on a first transition into done
or archive (first = the stored stamp is still falsy). -/
def stamp_timestamps (now : String) (t : Task) (b : Body) : Body :=
  match b.status with
  | none => b
  | some ns =>
    if ¬ns.isEmpty ∧ t.status ≠ some ns then
      if ns = "in-progress" ∧ isFalsyOpt t.startedAt then
        { b with startedAt := some now }
      else if (ns = "done" ∨ ns = "archive") ∧ isFalsyOpt t.completedAt then
        { b with completedAt := some now }
      else b
    else b

/-- The activity narration appended by `update_task_handler` when the body
carries a truthy status different from the stored one. -/
def transition_activity (t : Task) (b : Body) : Option String :=
  match b.status with
  | none => none
  | some ns =>
    if ¬ns.isEmpty ∧ t.status ≠ some ns then
      some ("📋 Task moved to " ++ ns ++ ": " ++ t.title.getD "Untitled")
    else none

/-- Whether the body carries a truthy status different from the stored one
and equal to "done" (the guard of line 210 in `update_task_handler`). -/
def is_done_transition (t : Task) (b : Body) : Bool :=
  match b.status with
  | some ns => !ns.isEmpty && decide (t.status ≠ some ns) && decide (ns = "done")
  | none => false

/-- The per-task effect of `update_task_handler` on the matching task:
stamp the body, copy `completedBy` on a transition to done (line 210-211,
redundant with the merge that follows), then merge the body into the task. -/
def update_task_record (now : String) (b : Body) (t : Task) : Task :=
  let b1 := stamp_timestamps now t b
  let t1 :=
    if is_done_transition t b && (b.completedBy).isSome then
      { t with completedBy := b.completedBy }
    else t
  t1.applyBody b1

/-- `create_task_handler` (lines 175-181): the generated id, createdAt and
back-filled startedAt / completedAt, followed by the `**body` spread, which
overrides any of the generated fields the body itself supplies. -/
def create_task (now newId : String) (b : Body) : Task :=
  let status := (b.status).getD "todo"
  { id := (b.id).getD newId,
    createdAt := mergeOpt b.createdAt (some now),
    startedAt := mergeOpt b.startedAt
      (if status = "in-progress" then some now else none),
    completedAt := mergeOpt b.completedAt
      (if status ∈ (["done", "archive"] : List String) then some now else none),
    status := b.status,
    completedBy := b.completedBy,
    title := b.title,
    assignedTo := b.assignedTo }

/-- Result of `create_task_handler`: the created task, the new collection,
the activity line, and whether the agent trigger fires. -/
structure CreateTaskResult where
  task : Task
  tasks : List Task
  activity : String
  trigger : Bool
deriving DecidableEq

/-- `create_task_handler`: append the created task, narrate, and fire the
agent trigger when `assignedTo` is truthy and starts with "Agent:". -/
def create_task_handler (now newId : String) (b : Body) (tasks : List Task) :
    CreateTaskResult :=
  let task := create_task now newId b
  { task := task,
    tasks := tasks ++ [task],
    activity := "📥 New task: " ++ task.title.getD "Untitled",
    trigger := !(task.assignedTo.getD "").isEmpty
               && pyStartsWith (task.assignedTo.getD "") "Agent:" }

/-- The loop of `update_task_handler`: update the first task whose id
matches (the loop breaks after the first hit), and report the possibly
augmented body (used for the broadcast) and the activity line. -/
def update_task_go (now tid : String) (b : Body) :
    List Task → List Task × Body × Option String
  | [] => ([], b, none)
  | t :: ts =>
    if t.id = tid then
      (update_task_record now b t :: ts,
       stamp_timestamps now t b,
       transition_activity t b)
    else
      let r := update_task_go now tid b ts
      (t :: r.1, r.2.1, r.2.2)

/-- Result of `update_task_handler`: the (always) saved collection, the
broadcast payload `{"id": task_id, **body}` and the `{"ok": True}` reply. -/
structure UpdateTaskResult where
  tasks : List Task
  eventType : String
  broadcastId : String
  broadcastBody : Body
  activity : Option String
  saved : Bool
  ok : Bool
deriving DecidableEq

/-- `update_task_handler`: update the first matching task (if any), always
save, always broadcast `task_updated` with the request id and the
(possibly augmented) body, always reply ok. -/
def update_task_handler (now tid : String) (b : Body) (tasks : List Task) :
    UpdateTaskResult :=
  let r := update_task_go now tid b tasks
  { tasks := r.1,
    eventType := "task_updated",
    broadcastId := tid,
    broadcastBody := r.2.1,
    activity := r.2.2,
    saved := true,
    ok := true }

/-- Iterated task updates: apply a sequence of (now, body) partial updates
to one task record. -/
def run_task_updates : List (String × Body) → Task → Task
  | [], t => t
  | (now, b) :: ops, t => run_task_updates ops (update_task_record now b t)

/-- Modelled from the spec sentence "startedAt is set exactly once, the
first time status transitions into in-progress, and is never overwritten
by subsequent status transitions": walking the update sequence while
tracking the current status, the stamp is set at the first update whose
new status is in-progress and differs from the current status while the
stamp is still unset, and it never changes afterwards. -/
def spec_started_at :
    Option String → Option String → List (String × Body) → Option String
  | stamp, _, [] => stamp
  | stamp, cur, (now, b) :: ops =>
    match b.status with
    | some ns =>
      spec_started_at
        (if ns = "in-progress" ∧ cur ≠ some ns ∧ stamp = none
         then some now else stamp)
        (some ns) ops
    | none => spec_started_at stamp cur ops

/-- Modelled from the spec sentence "completedAt is set exactly once, the
first time status transitions into done or archive; re-entering done
afterward does not reset it". -/
def spec_completed_at :
    Option String → Option String → List (String × Body) → Option String
  | stamp, _, [] => stamp
  | stamp, cur, (now, b) :: ops =>
    match b.status with
    | some ns =>
      spec_completed_at
        (if (ns = "done" ∨ ns = "archive") ∧ cur ≠ some ns ∧ stamp = none
         then some now else stamp)
        (some ns) ops
    | none => spec_completed_at stamp cur ops

/-- An agent record, with the fields used by `update_agent_handler`. -/
structure Agent where
  id : String
  status : Option String := none
  startedWorkingAt : Option String := none
  name : Option String := none
  currentTask : Option String := none
deriving DecidableEq

/-- A JSON body for an agent status update (the id comes from the path). -/
structure AgentBody where
  status : Option String := none
  startedWorkingAt : Option String := none
  name : Option String := none
  currentTask : Option String := none
deriving DecidableEq

/-- `agent.update(body)`. -/
def Agent.applyBody (a : Agent) (b : AgentBody) : Agent :=
  { id := a.id,
    status := mergeOpt b.status a.status,
    startedWorkingAt := mergeOpt b.startedWorkingAt a.startedWorkingAt,
    name := mergeOpt b.name a.name,
    currentTask := mergeOpt b.currentTask a.currentTask }

/-- The busy labels of `update_agent_handler` (line 243). -/
def working_statuses : List String :=
  ["Working", "Thinking", "Checking", "Typing", "Delegating", "Heartbeat",
   "Managing"]

/-- The effect of `update_agent_handler` on a found agent (lines 249-256):
read the old status (default "Idle"), merge the body, then stamp
`startedWorkingAt := now` when the new status is busy and either the old
status was not busy or the merged stamp is falsy, or clear it when the new
status is Idle or Standby.  Membership in the label lists implies the
Python truthiness test on the new status. -/
def update_agent_record (now : String) (b : AgentBody) (a : Agent) : Agent :=
  let old_status := (a.status).getD "Idle"
  let a1 := a.applyBody b
  match b.status with
  | none => a1
  | some ns =>
    if ns ∈ working_statuses then
      if old_status ∉ working_statuses ∨ isFalsyOpt a1.startedWorkingAt then
        { a1 with startedWorkingAt := some now }
      else a1
    else if ns = "Idle" ∨ ns = "Standby" then
      { a1 with startedWorkingAt := none }
    else a1

/-- The agent created by the upsert branch of `update_agent_handler`
(lines 261-265): `{"id": agent_id, **body}`, stamped with
`startedWorkingAt := now` when the new status is busy. -/
def new_agent (now aid : String) (b : AgentBody) : Agent :=
  let a : Agent := { id := aid, status := b.status,
                     startedWorkingAt := b.startedWorkingAt,
                     name := b.name, currentTask := b.currentTask }
  match b.status with
  | none => a
  | some ns => if ns ∈ working_statuses then
                 { a with startedWorkingAt := some now }
               else a

/-- The search loop of `update_agent_handler`: update the first agent whose
id matches, and report whether one was found. -/
def update_agent_go (now : String) (aid : String) (b : AgentBody) :
    List Agent → List Agent × Bool
  | [] => ([], false)
  | a :: as =>
    if a.id = aid then (update_agent_record now b a :: as, true)
    else
      let r := update_agent_go now aid b as
      (a :: r.1, r.2)

/-- `update_agent_handler`: upsert — update the first matching agent, or
append a freshly created one when the id is unknown. -/
def update_agent_handler (now aid : String) (b : AgentBody)
    (agents : List Agent) : List Agent :=
  let r := update_agent_go now aid b agents
  if r.2 then r.1 else r.1 ++ [new_agent now aid b]

/-- A note record. -/
structure Note where
  id : String
  content : String := ""
  createdAt : String := ""
  read : Bool := false
  readAt : Option String := none
deriving DecidableEq

/-- The broadcast payload of `mark_note_read_handler` (always sent, and
always carrying the fresh `now`, found or not). -/
structure NoteBroadcast where
  id : String
  read : Bool
  readAt : String
deriving DecidableEq

/-- The loop of `mark_note_read_handler` (lines 345-349): the first note
whose id matches gets `read := true` and `readAt := now`, unconditionally. -/
def mark_note_read_go (now nid : String) : List Note → List Note
  | [] => []
  | n :: ns =>
    if n.id = nid then { n with read := true, readAt := some now } :: ns
    else n :: mark_note_read_go now nid ns

/-- `mark_note_read_handler`: mark the first matching note read, save, and
broadcast `note_updated` with the request id and the fresh timestamp. -/
def mark_note_read_handler (now nid : String) (notes : List Note) :
    List Note × NoteBroadcast :=
  (mark_note_read_go now nid notes, { id := nid, read := true, readAt := now })

/-- Whether `archive_old_tasks_handler` archives a task (line 756): status
is exactly "done" and `completedAt or ''` compares below the cutoff string
(a missing or empty `completedAt` becomes the empty string, which is below
every nonempty cutoff). -/
def archive_eligible (cutoff : String) (t : Task) : Bool :=
  decide (t.status = some "done") && pyStrLt ((t.completedAt).getD "") cutoff

/-- The sweep loop of `archive_old_tasks_handler` (lines 755-758): flip
every eligible task to "archive" and count the flips. -/
def archive_sweep (cutoff : String) : List Task → List Task × Nat
  | [] => ([], 0)
  | t :: ts =>
    let r := archive_sweep cutoff ts
    if archive_eligible cutoff t then
      ({ t with status := some "archive" } :: r.1, r.2 + 1)
    else (t :: r.1, r.2)

/-- The per-task effect of the sweep, for stating the sweep as a map. -/
def archive_step (cutoff : String) (t : Task) : Task :=
  if archive_eligible cutoff t then { t with status := some "archive" } else t

/-- Result of `archive_old_tasks_handler`: the collection, the reported
count, and the persist / activity / broadcast effects. -/
structure ArchiveResult where
  tasks : List Task
  archived : Nat
  saved : Bool
  activity : Option String
  broadcastCount : Option Nat
deriving DecidableEq

/-- `archive_old_tasks_handler`: run the sweep; when the count is nonzero,
save, append one activity entry and broadcast `tasks_archived` with the
count; otherwise do none of those. -/
def archive_old_tasks_handler (cutoff : String) (tasks : List Task) :
    ArchiveResult :=
  let r := archive_sweep cutoff tasks
  if r.2 ≠ 0 then
    { tasks := r.1, archived := r.2, saved := true,
      activity := some ("📦 Auto-archived " ++ toString r.2 ++
        " completed tasks older than 7 days"),
      broadcastCount := some r.2 }
  else
    { tasks := r.1, archived := r.2, saved := false, activity := none,
      broadcastCount := none }

/-- A live-feed entry. -/
structure FeedEntry where
  id : String
  message : String
  type : String
  timestamp : String
deriving DecidableEq

/-- The fixed set of valid feed entry types (lines 767-768), in source
order. -/
def FEED_VALID_TYPES : List String :=
  ["thinking", "working", "agent-spawned", "agent-completed", "agent-failed",
   "validating", "decision", "error", "completed"]

/-- Insert a string into an already sorted list. -/
def insertSorted (s : String) : List String → List String
  | [] => [s]
  | t :: ts => if pyStrLe s t then s :: t :: ts else t :: insertSorted s ts

/-- Python `sorted` on a list of strings (insertion sort). -/
def sortStrings : List String → List String
  | [] => []
  | s :: ts => insertSorted s (sortStrings ts)

/-- `prune_old_feed_entries` (lines 770-774): keep only entries whose
timestamp has a date component at or after the current UTC day. -/
def prune_old_feed_entries (today : String) (es : List FeedEntry) :
    List FeedEntry :=
  es.filter (fun e => pyStrGe (e.timestamp.take 10) today)

/-- Result of `post_feed_handler`: the reply, the buffer afterwards, and
the broadcast (if any). -/
structure PostFeedResult where
  ok : Bool
  error : Option String
  entryId : Option String
  buffer : List FeedEntry
  broadcast : Option FeedEntry
deriving DecidableEq

/-- `post_feed_handler` (lines 776-797): resolve the message (default ""),
type (default "working") and timestamp (caller value when truthy, else
now); reject an invalid type with a 400 error naming the sorted valid set,
leaving the buffer untouched and broadcasting nothing; otherwise prune the
buffer, append the new entry and broadcast it. -/
def post_feed_handler (today now newId : String)
    (msgOpt tyOpt tsOpt : Option String) (es : List FeedEntry) :
    PostFeedResult :=
  let message := msgOpt.getD ""
  let entry_type := tyOpt.getD "working"
  let timestamp := match tsOpt with
    | some ts => if ts.isEmpty then now else ts
    | none => now
  if entry_type ∉ FEED_VALID_TYPES then
    { ok := false,
      error := some ("Invalid type. Must be one of: " ++
        String.intercalate ", " (sortStrings FEED_VALID_TYPES)),
      entryId := none, buffer := es, broadcast := none }
  else
    let entry : FeedEntry :=
      { id := newId, message := message, type := entry_type,
        timestamp := timestamp }
    { ok := true, error := none, entryId := some newId,
      buffer := prune_old_feed_entries today es ++ [entry],
      broadcast := some entry }

/-- Python `xs[-n:]` for `n ≥ 1`: the suffix of the last `n` elements. -/
def lastN (n : Nat) (xs : List FeedEntry) : List FeedEntry :=
  xs.drop (xs.length - n)

/-- The limit clamp of `get_feed_handler` (line 801):
`min(500, max(1, int(query or 100)))`. -/
def clamp_limit (limitQ : Option Int) : Int :=
  min 500 (max 1 (limitQ.getD 100))

/-- The `since` filter of `get_feed_handler` (lines 806-807): when `since`
is truthy, keep only entries with a strictly greater timestamp. -/
def feed_since_filter (since : String) (es : List FeedEntry) :
    List FeedEntry :=
  if since.isEmpty then es else es.filter (fun e => pyStrLt since e.timestamp)

/-- `get_feed_handler` (lines 799-812): prune, filter by `since`, and
return the last `limit` remaining entries in buffer order, together with
the pruned buffer the handler leaves behind. -/
def get_feed_handler (today since : String) (limitQ : Option Int)
    (es : List FeedEntry) : List FeedEntry × List FeedEntry :=
  let limit := clamp_limit limitQ
  let pruned := prune_old_feed_entries today es
  let entries := feed_since_filter since pruned
  (lastN limit.toNat entries, pruned)

section FeedTheorems

/-- Claim C7: a post whose resolved type is outside the fixed enum fails
with a client error listing the valid set (sorted), appends nothing to the
feed buffer (the buffer is unchanged), and issues no broadcast. -/
theorem C7_invalid_feed_type (today now newId : String)
    (msgOpt tyOpt tsOpt : Option String) (es : List FeedEntry)
    (h : tyOpt.getD "working" ∉ FEED_VALID_TYPES) :
    (post_feed_handler today now newId msgOpt tyOpt tsOpt es).ok = false
    ∧ (post_feed_handler today now newId msgOpt tyOpt tsOpt es).error =
        some ("Invalid type. Must be one of: agent-completed, agent-failed, "
          ++ "agent-spawned, completed, decision, error, thinking, "
          ++ "validating, working")
    ∧ (post_feed_handler today now newId msgOpt tyOpt tsOpt es).buffer = es
    ∧ (post_feed_handler today now newId msgOpt tyOpt tsOpt es).broadcast
        = none := by
  simp only [post_feed_handler, if_pos h]
  refine ⟨trivial, ?_, trivial, trivial⟩
  decide

/-- Witness for C7 at a concrete invalid type. -/
theorem C7_witness :
    (("bogus" : String) ∉ FEED_VALID_TYPES)
    ∧ (post_feed_handler "2026-10-12" "2026-10-12T10:00:00Z" "abcd1234"
        (some "m") (some "bogus") none
        [{ id := "e1", message := "x", type := "working",
           timestamp := "2026-10-12T09:00:00Z" }]).buffer
      = [{ id := "e1", message := "x", type := "working",
           timestamp := "2026-10-12T09:00:00Z" }] := by
  refine ⟨by decide, ?_⟩
  exact (C7_invalid_feed_type "2026-10-12" "2026-10-12T10:00:00Z" "abcd1234"
    (some "m") (some "bogus") none _ (by decide)).2.2.1

/-- An entry from a day before `today` does not survive the prune. -/
lemma not_mem_prune (today : String) (es : List FeedEntry) (e : FeedEntry)
    (hold : pyStrLt (e.timestamp.take 10) today = true) :
    e ∉ prune_old_feed_entries today es := by
  intro hmem
  have := (List.mem_filter.mp hmem).2
  simp only [pyStrGe, hold, Bool.not_true] at this
  exact absurd this (by simp)

/-- Claim C6: a buffered entry whose timestamp date precedes the current
UTC day is gone after any successful post (the posted entry carries a
fresh id) and after any read, and appears in no read result. -/
theorem C6_old_entries_invisible (today now newId since : String)
    (msgOpt tsOpt : Option String) (ty : String) (limitQ : Option Int)
    (es : List FeedEntry) (e : FeedEntry)
    (he : e ∈ es) (hold : pyStrLt (e.timestamp.take 10) today = true)
    (hty : ty ∈ FEED_VALID_TYPES) (hid : e.id ≠ newId) :
    e ∉ (post_feed_handler today now newId msgOpt (some ty) tsOpt es).buffer
    ∧ e ∉ (get_feed_handler today since limitQ es).2
    ∧ e ∉ (get_feed_handler today since limitQ es).1 := by
  have hprune := not_mem_prune today es e hold
  have hnin : ¬((some ty).getD "working" ∉ FEED_VALID_TYPES) := by
    simp only [Option.getD_some]
    exact fun hn => hn hty
  refine ⟨?_, ?_, ?_⟩
  · simp only [post_feed_handler, if_neg hnin]
    intro hmem
    rcases List.mem_append.mp hmem with hmem | hmem
    · exact hprune hmem
    · rcases List.mem_singleton.mp hmem with rfl
      exact hid rfl
  · exact hprune
  · intro hmem
    have h1 : e ∈ feed_since_filter since (prune_old_feed_entries today es) := by
      have hsuf : (get_feed_handler today since limitQ es).1
          <:+ feed_since_filter since (prune_old_feed_entries today es) :=
        List.drop_suffix _ _
      exact hsuf.subset hmem
    apply hprune
    unfold feed_since_filter at h1
    split at h1
    · exact h1
    · exact (List.mem_filter.mp h1).1

/-- Witness for C6 at a concrete buffer holding one stale entry. -/
theorem C6_witness :
    ({ id := "e0", message := "old", type := "working",
       timestamp := "2026-10-11T22:00:00Z" } : FeedEntry)
      ∉ (get_feed_handler "2026-10-12" "" none
          [{ id := "e0", message := "old", type := "working",
             timestamp := "2026-10-11T22:00:00Z" }]).1 :=
  (C6_old_entries_invisible "2026-10-12" "2026-10-12T08:00:00Z" "fresh123"
    "" (some "m") none "working" none _ _
    (List.mem_singleton.mpr rfl) (by decide) (by decide) (by decide)).2.2

lemma lastN_length (n : Nat) (xs : List FeedEntry) :
    (lastN n xs).length = min n xs.length := by
  simp only [lastN, List.length_drop]
  omega

lemma lastN_of_le (n : Nat) (xs : List FeedEntry) (h : xs.length ≤ n) :
    lastN n xs = xs := by
  simp [lastN, Nat.sub_eq_zero_of_le h]

/-- Counterexample to claim C5: with buffer entries appended out of
timestamp order, `read` returns the last appended entry, not the most
recent one by timestamp — here the more recent entry a1 qualifies and is
in the buffer, yet the older a2 is returned. -/
theorem C5_counterexample :
    (get_feed_handler "2026-10-12" "" (some 1)
      [{ id := "a1", message := "m1", type := "working",
         timestamp := "2026-10-12T05:00:00Z" },
       { id := "a2", message := "m2", type := "error",
         timestamp := "2026-10-12T03:00:00Z" }]).1
      = [{ id := "a2", message := "m2", type := "error",
           timestamp := "2026-10-12T03:00:00Z" }]
    ∧ ({ id := "a1", message := "m1", type := "working",
         timestamp := "2026-10-12T05:00:00Z" } : FeedEntry)
        ∈ (get_feed_handler "2026-10-12" "" (some 1)
            [{ id := "a1", message := "m1", type := "working",
               timestamp := "2026-10-12T05:00:00Z" },
             { id := "a2", message := "m2", type := "error",
               timestamp := "2026-10-12T03:00:00Z" }]).2
    ∧ pyStrLt "2026-10-12T03:00:00Z" "2026-10-12T05:00:00Z" = true := by
  decide

/-- Claim C5 (amended): `read(since, limit)` clamps the limit to 1-500
with default 100, filters the same-day-pruned buffer to entries with
timestamp strictly greater than `since` (all of them when `since` is
empty), and returns the last `limit` qualifying entries in buffer
(append) order — all of them when at most `limit` qualify, and the most
recent `limit` in chronological order whenever the buffer order is
chronological. -/
theorem C5_feed_read (today since : String) (limitQ : Option Int)
    (es : List FeedEntry) :
    1 ≤ clamp_limit limitQ ∧ clamp_limit limitQ ≤ 500
    ∧ (limitQ = none → clamp_limit limitQ = 100)
    ∧ (get_feed_handler today since limitQ es).1
        = lastN (clamp_limit limitQ).toNat
            (feed_since_filter since (prune_old_feed_entries today es))
    ∧ (get_feed_handler today since limitQ es).1.length
        ≤ (clamp_limit limitQ).toNat
    ∧ (∀ e ∈ (get_feed_handler today since limitQ es).1,
        e ∈ prune_old_feed_entries today es
        ∧ (¬since.isEmpty → pyStrLt since e.timestamp = true))
    ∧ ((feed_since_filter since (prune_old_feed_entries today es)).length
          ≤ (clamp_limit limitQ).toNat →
        (get_feed_handler today since limitQ es).1
          = feed_since_filter since (prune_old_feed_entries today es))
    ∧ (get_feed_handler today since limitQ es).1
        <:+ feed_since_filter since (prune_old_feed_entries today es)
    ∧ (List.Pairwise
          (fun a b => pyStrLe a.timestamp b.timestamp = true)
          (feed_since_filter since (prune_old_feed_entries today es)) →
        ∀ e1 ∈ feed_since_filter since (prune_old_feed_entries today es),
          e1 ∉ (get_feed_handler today since limitQ es).1 →
          ∀ e2 ∈ (get_feed_handler today since limitQ es).1,
            pyStrLe e1.timestamp e2.timestamp = true) := by
  have hsuf : (get_feed_handler today since limitQ es).1
      <:+ feed_since_filter since (prune_old_feed_entries today es) :=
    List.drop_suffix _ _
  refine ⟨?_, ?_, ?_, rfl, ?_, ?_, ?_, hsuf, ?_⟩
  · exact le_min_iff.mpr ⟨by norm_num, le_max_left _ _⟩
  · exact min_le_left _ _
  · intro h
    subst h
    decide
  · show (lastN (clamp_limit limitQ).toNat
      (feed_since_filter since (prune_old_feed_entries today es))).length
      ≤ (clamp_limit limitQ).toNat
    rw [lastN_length]
    exact min_le_left _ _
  · intro e he
    have he1 : e ∈ feed_since_filter since (prune_old_feed_entries today es) :=
      hsuf.subset he
    unfold feed_since_filter at he1
    constructor
    · split at he1
      · exact he1
      · exact (List.mem_filter.mp he1).1
    · intro hne
      split at he1
      next hcond => exact absurd hcond hne
      next => exact (List.mem_filter.mp he1).2
  · intro h
    exact lastN_of_le _ _ h
  · intro hpw e1 he1 hne1 e2 he2
    obtain ⟨pre, hpre⟩ := hsuf
    rw [← hpre] at hpw he1
    rcases List.mem_append.mp he1 with h | h
    · exact (List.pairwise_append.mp hpw).2.2 e1 h e2 he2
    · exact absurd h hne1

/-- Witness for C5 at a concrete buffer where all entries fit under the
default limit. -/
theorem C5_witness :
    (get_feed_handler "2026-10-12" "" none
      [{ id := "a1", message := "m1", type := "working",
         timestamp := "2026-10-12T05:00:00Z" }]).1
      = [{ id := "a1", message := "m1", type := "working",
           timestamp := "2026-10-12T05:00:00Z" }] := by
  have h := (C5_feed_read "2026-10-12" "" none
    [{ id := "a1", message := "m1", type := "working",
       timestamp := "2026-10-12T05:00:00Z" }]).2.2.2.2.2.2.1 (by decide)
  exact h.trans (by decide)

end FeedTheorems

section ArchiveTheorems

/-- The sweep loop computed as a map plus a filter count. -/
lemma archive_sweep_eq (cutoff : String) (tasks : List Task) :
    archive_sweep cutoff tasks
      = (tasks.map (archive_step cutoff),
         (tasks.filter (archive_eligible cutoff)).length) := by
  induction tasks with
  | nil => rfl
  | cons t ts ih =>
    simp only [archive_sweep, ih, List.map_cons, List.filter_cons,
      archive_step]
    by_cases h : archive_eligible cutoff t = true
    · simp [h]
    · simp [h]

/-- The collection a sweep leaves behind. -/
lemma archive_handler_tasks (cutoff : String) (tasks : List Task) :
    (archive_old_tasks_handler cutoff tasks).tasks
      = tasks.map (archive_step cutoff) := by
  simp only [archive_old_tasks_handler]
  rw [archive_sweep_eq]
  split_ifs <;> rfl

/-- A task the sweep has already processed is no longer eligible. -/
lemma archive_eligible_step (cutoff : String) (t : Task) :
    archive_eligible cutoff (archive_step cutoff t) = false := by
  unfold archive_step
  by_cases h : archive_eligible cutoff t = true
  · rw [if_pos h]
    simp [archive_eligible]
  · rw [if_neg h]
    simpa using h

/-- An ineligible task is left alone by the sweep step. -/
lemma archive_step_of_not_eligible (cutoff : String) (t : Task)
    (h : archive_eligible cutoff t = false) :
    archive_step cutoff t = t := by
  unfold archive_step
  rw [h]
  simp

/-- Counterexample to claim C3: a done task with no completedAt at all is
archived by the sweep (the code compares the empty string against the
cutoff, and the empty string is below every nonempty cutoff), while the
claim says such a task is never archived. -/
theorem C3_counterexample :
    ({ id := "t1", status := some "done" } : Task).completedAt = none
    ∧ (archive_old_tasks_handler "2026-10-05T00:00:00Z"
        [{ id := "t1", status := some "done" }]).tasks
      = [{ id := "t1", status := some "archive" }]
    ∧ (archive_old_tasks_handler "2026-10-05T00:00:00Z"
        [{ id := "t1", status := some "done" }]).archived = 1 := by
  decide

/-- Claim C3 (amended): the sweep transitions to archive exactly those
tasks whose status is done and whose completedAt — taken as the empty
string when missing — compares lexicographically below the 7-day cutoff
timestamp (so a done task without completedAt is archived too); when at
least one task changed it persists, appends one activity entry, and
broadcasts tasks_archived with the count of changed tasks, and otherwise
it does none of those and the collection is unchanged. -/
theorem C3_archive_sweep (cutoff : String) (tasks : List Task) :
    (archive_old_tasks_handler cutoff tasks).tasks
        = tasks.map (archive_step cutoff)
    ∧ (archive_old_tasks_handler cutoff tasks).archived
        = (tasks.filter (archive_eligible cutoff)).length
    ∧ ((archive_old_tasks_handler cutoff tasks).archived ≠ 0 →
        (archive_old_tasks_handler cutoff tasks).saved = true
        ∧ (archive_old_tasks_handler cutoff tasks).activity
            = some ("📦 Auto-archived "
                ++ toString (archive_old_tasks_handler cutoff tasks).archived
                ++ " completed tasks older than 7 days")
        ∧ (archive_old_tasks_handler cutoff tasks).broadcastCount
            = some (archive_old_tasks_handler cutoff tasks).archived)
    ∧ ((archive_old_tasks_handler cutoff tasks).archived = 0 →
        (archive_old_tasks_handler cutoff tasks).saved = false
        ∧ (archive_old_tasks_handler cutoff tasks).activity = none
        ∧ (archive_old_tasks_handler cutoff tasks).broadcastCount = none
        ∧ (archive_old_tasks_handler cutoff tasks).tasks = tasks) := by
  simp only [archive_old_tasks_handler]
  rw [archive_sweep_eq]
  by_cases h : (tasks.filter (archive_eligible cutoff)).length = 0
  · rw [if_neg (by simpa using h)]
    refine ⟨rfl, h ▸ rfl, fun habs => absurd h habs, fun _ => ⟨rfl, rfl, rfl, ?_⟩⟩
    have hnil : tasks.filter (archive_eligible cutoff) = [] :=
      List.length_eq_zero.mp h
    have hid : ∀ t ∈ tasks, archive_step cutoff t = t := by
      intro t ht
      have hne := List.filter_eq_nil_iff.mp hnil t ht
      unfold archive_step
      rw [if_neg hne]
    calc tasks.map (archive_step cutoff) = tasks.map id :=
          List.map_congr_left hid
      _ = tasks := List.map_id tasks
  · rw [if_pos (by simpa using h)]
    exact ⟨rfl, rfl, fun _ => ⟨rfl, rfl, rfl⟩, fun h0 => absurd h0 h⟩

/-- Witness for C3 at a concrete collection with one eligible task. -/
theorem C3_witness :
    (archive_old_tasks_handler "2026-10-05T00:00:00Z"
      [{ id := "t1", status := some "done",
         completedAt := some "2026-09-01T00:00:00Z" }]).saved = true
    ∧ (archive_old_tasks_handler "2026-10-05T00:00:00Z"
        [{ id := "t1", status := some "done",
           completedAt := some "2026-09-01T00:00:00Z" }]).broadcastCount
      = some 1 := by
  have h := (C3_archive_sweep "2026-10-05T00:00:00Z"
    [{ id := "t1", status := some "done",
       completedAt := some "2026-09-01T00:00:00Z" }]).2.2.1 (by decide)
  refine ⟨h.1, ?_⟩
  rw [h.2.2]
  decide

/-- Claim C4: the sweep is idempotent — run twice in a row with the same
cutoff, the second run reports zero archived, changes nothing, does not
persist, appends no activity entry and broadcasts nothing. -/
theorem C4_sweep_idempotent (cutoff : String) (tasks : List Task) :
    (archive_old_tasks_handler cutoff
        (archive_old_tasks_handler cutoff tasks).tasks).archived = 0
    ∧ (archive_old_tasks_handler cutoff
        (archive_old_tasks_handler cutoff tasks).tasks).tasks
        = (archive_old_tasks_handler cutoff tasks).tasks
    ∧ (archive_old_tasks_handler cutoff
        (archive_old_tasks_handler cutoff tasks).tasks).saved = false
    ∧ (archive_old_tasks_handler cutoff
        (archive_old_tasks_handler cutoff tasks).tasks).activity = none
    ∧ (archive_old_tasks_handler cutoff
        (archive_old_tasks_handler cutoff tasks).tasks).broadcastCount
        = none := by
  have hall : ∀ x ∈ tasks.map (archive_step cutoff),
      ¬(archive_eligible cutoff x = true) := by
    intro x hx
    obtain ⟨t, _, rfl⟩ := List.mem_map.mp hx
    simp [archive_eligible_step]
  have hfil : (tasks.map (archive_step cutoff)).filter
      (archive_eligible cutoff) = [] :=
    List.filter_eq_nil_iff.mpr hall
  have hmap2 : (tasks.map (archive_step cutoff)).map (archive_step cutoff)
      = tasks.map (archive_step cutoff) := by
    have hstep : ∀ x ∈ tasks.map (archive_step cutoff),
        archive_step cutoff x = x := by
      intro x hx
      have hne : archive_eligible cutoff x = false := by
        obtain ⟨t, _, rfl⟩ := List.mem_map.mp hx
        exact archive_eligible_step cutoff t
      exact archive_step_of_not_eligible cutoff x hne
    calc (tasks.map (archive_step cutoff)).map (archive_step cutoff)
        = (tasks.map (archive_step cutoff)).map id :=
          List.map_congr_left hstep
      _ = tasks.map (archive_step cutoff) := List.map_id _
  rw [archive_handler_tasks cutoff tasks]
  simp only [archive_old_tasks_handler]
  rw [archive_sweep_eq, hfil]
  simp [hmap2]

end ArchiveTheorems

section NoteTheorems

/-- Counterexample to claim C8: marking the same note read twice, at two
different times, overwrites readAt with the later time — the code sets
`readAt = now` unconditionally, so readAt is not set once on the first
mark-read. -/
theorem C8_counterexample :
    (mark_note_read_handler "2026-10-12T00:00:00Z" "n1"
      [{ id := "n1", content := "hello",
         createdAt := "2026-10-11T09:00:00Z" }]).1
      = [{ id := "n1", content := "hello",
           createdAt := "2026-10-11T09:00:00Z", read := true,
           readAt := some "2026-10-12T00:00:00Z" }]
    ∧ (mark_note_read_handler "2026-10-12T01:00:00Z" "n1"
        (mark_note_read_handler "2026-10-12T00:00:00Z" "n1"
          [{ id := "n1", content := "hello",
             createdAt := "2026-10-11T09:00:00Z" }]).1).1
      = [{ id := "n1", content := "hello",
           createdAt := "2026-10-11T09:00:00Z", read := true,
           readAt := some "2026-10-12T01:00:00Z" }]
    ∧ (some "2026-10-12T01:00:00Z" : Option String)
        ≠ some "2026-10-12T00:00:00Z" := by
  decide

/-- The mark-read loop rewrites exactly the first note whose id matches. -/
lemma mark_note_read_go_eq (now nid : String) (pre post : List Note)
    (n : Note) (hn : n.id = nid) (hpre : ∀ m ∈ pre, m.id ≠ nid) :
    mark_note_read_go now nid (pre ++ n :: post)
      = pre ++ { n with read := true, readAt := some now } :: post := by
  induction pre with
  | nil =>
    simp only [List.nil_append, mark_note_read_go, if_pos hn]
  | cons m ms ih =>
    have hm : m.id ≠ nid := hpre m (List.mem_cons_self m ms)
    simp only [List.cons_append, mark_note_read_go, if_neg hm, List.append_eq]
    rw [ih (fun x hx => hpre x (List.mem_cons_of_mem m hx))]

/-- Claim C8 (amended): every mark-read operation on a note sets read to
true and readAt to the time of that operation — the first mark-read sets
readAt, and every later mark-read on the same note overwrites it with the
later time. -/
theorem C8_mark_read_sets_now (now nid : String) (pre post : List Note)
    (n : Note) (hn : n.id = nid) (hpre : ∀ m ∈ pre, m.id ≠ nid) :
    (mark_note_read_handler now nid (pre ++ n :: post)).1
      = pre ++ { n with read := true, readAt := some now } :: post :=
  mark_note_read_go_eq now nid pre post n hn hpre

/-- Witness for C8 at a concrete two-note collection. -/
theorem C8_witness :
    (mark_note_read_handler "2026-10-12T00:00:00Z" "n2"
      [{ id := "n1", content := "a", createdAt := "2026-10-10T00:00:00Z" },
       { id := "n2", content := "b", createdAt := "2026-10-11T00:00:00Z" }]).1
      = [{ id := "n1", content := "a", createdAt := "2026-10-10T00:00:00Z" },
         { id := "n2", content := "b", createdAt := "2026-10-11T00:00:00Z",
           read := true, readAt := some "2026-10-12T00:00:00Z" }] :=
  C8_mark_read_sets_now "2026-10-12T00:00:00Z" "n2"
    [{ id := "n1", content := "a", createdAt := "2026-10-10T00:00:00Z" }] []
    { id := "n2", content := "b", createdAt := "2026-10-11T00:00:00Z" }
    rfl (by decide)

end NoteTheorems

section TaskHandlerTheorems

/-- When no task has the request id, the update loop returns the
collection, the body and the activity untouched. -/
lemma update_task_go_not_found (now tid : String) (b : Body)
    (tasks : List Task) (h : ∀ t ∈ tasks, t.id ≠ tid) :
    update_task_go now tid b tasks = (tasks, b, none) := by
  induction tasks with
  | nil => rfl
  | cons t ts ih =>
    have ht : t.id ≠ tid := h t (List.mem_cons_self t ts)
    simp only [update_task_go, if_neg ht,
      ih (fun x hx => h x (List.mem_cons_of_mem t hx))]

/-- Claim C10: a task update whose id matches no existing task still
replies ok, still saves the unchanged collection, appends no activity,
and broadcasts a task_updated event carrying exactly the request id and
the supplied body — indistinguishable from a real update. -/
theorem C10_update_unknown_id (now tid : String) (b : Body)
    (tasks : List Task) (h : ∀ t ∈ tasks, t.id ≠ tid) :
    (update_task_handler now tid b tasks).tasks = tasks
    ∧ (update_task_handler now tid b tasks).ok = true
    ∧ (update_task_handler now tid b tasks).saved = true
    ∧ (update_task_handler now tid b tasks).eventType = "task_updated"
    ∧ (update_task_handler now tid b tasks).broadcastId = tid
    ∧ (update_task_handler now tid b tasks).broadcastBody = b
    ∧ (update_task_handler now tid b tasks).activity = none := by
  have hg := update_task_go_not_found now tid b tasks h
  simp [update_task_handler, hg]

/-- Witness for C10 at a concrete collection without the request id. -/
theorem C10_witness :
    (update_task_handler "2026-10-12T00:00:00Z" "zz"
      { status := some "done" } [{ id := "aa", status := some "todo" }]).tasks
      = [{ id := "aa", status := some "todo" }]
    ∧ (update_task_handler "2026-10-12T00:00:00Z" "zz"
        { status := some "done" }
        [{ id := "aa", status := some "todo" }]).broadcastBody
      = { status := some "done" } := by
  have h := C10_update_unknown_id "2026-10-12T00:00:00Z" "zz"
    { status := some "done" } [{ id := "aa", status := some "todo" }]
    (by decide)
  exact ⟨h.1, h.2.2.2.2.2.1⟩

/-- Counterexample to claim C9: the `**body` spread comes after the
generated fields, so a body supplying id and createdAt overrides both —
the created task carries the caller id (here duplicating an existing one)
and the caller createdAt instead of the current time. -/
theorem C9_counterexample :
    (create_task_handler "2026-10-12T00:00:00Z" "fresh789"
      { id := some "dup12345", createdAt := some "1999-01-01T00:00:00Z",
        status := some "todo" }
      [{ id := "dup12345", status := some "done" }]).task.createdAt
      = some "1999-01-01T00:00:00Z"
    ∧ (("1999-01-01T00:00:00Z" : String) ≠ "2026-10-12T00:00:00Z")
    ∧ ((create_task_handler "2026-10-12T00:00:00Z" "fresh789"
        { id := some "dup12345", createdAt := some "1999-01-01T00:00:00Z",
          status := some "todo" }
        [{ id := "dup12345", status := some "done" }]).tasks.filter
          (fun t => decide (t.id = "dup12345"))).length = 2 := by
  decide

/-- Claim C9 (amended): when the creation body supplies none of id,
createdAt, startedAt and completedAt, the created task carries the
generated id and a createdAt stamped with the current time, startedAt is
back-filled when the initial status (default "todo") is in-progress,
completedAt is back-filled when it is done or archive, and the task is
appended to the collection; a body that does supply any of those four
fields overrides the generated values, and the generated id is a fresh
random token whose uniqueness against the collection is not checked. -/
theorem C9_create_task_fields (now newId : String) (b : Body)
    (tasks : List Task) (hid : b.id = none) (hca : b.createdAt = none)
    (hsa : b.startedAt = none) (hco : b.completedAt = none) :
    (create_task_handler now newId b tasks).task.id = newId
    ∧ (create_task_handler now newId b tasks).task.createdAt = some now
    ∧ (create_task_handler now newId b tasks).task.startedAt
        = (if b.status.getD "todo" = "in-progress" then some now else none)
    ∧ (create_task_handler now newId b tasks).task.completedAt
        = (if b.status.getD "todo" = "done" ∨ b.status.getD "todo" = "archive"
           then some now else none)
    ∧ (create_task_handler now newId b tasks).task.status = b.status
    ∧ (create_task_handler now newId b tasks).tasks
        = tasks ++ [(create_task_handler now newId b tasks).task] := by
  simp only [create_task_handler, create_task, hid, hca, hsa, hco, mergeOpt,
    Option.getD_none]
  refine ⟨trivial, trivial, trivial, ?_, trivial, trivial⟩
  by_cases h : b.status.getD "todo" = "done" ∨ b.status.getD "todo" = "archive"
  · rw [if_pos (show b.status.getD "todo" ∈ (["done", "archive"] : List String)
      by simpa using h), if_pos h]
  · rw [if_neg (show ¬b.status.getD "todo" ∈ (["done", "archive"] : List String)
      by simpa using h), if_neg h]

/-- Witness for C9 at a concrete in-progress creation. -/
theorem C9_witness :
    (create_task_handler "2026-10-12T00:00:00Z" "ab12cd34"
      { status := some "in-progress", title := some "Write report" }
      []).task.startedAt = some "2026-10-12T00:00:00Z"
    ∧ (create_task_handler "2026-10-12T00:00:00Z" "ab12cd34"
        { status := some "in-progress", title := some "Write report" }
        []).task.id = "ab12cd34" := by
  have h := C9_create_task_fields "2026-10-12T00:00:00Z" "ab12cd34"
    { status := some "in-progress", title := some "Write report" } []
    rfl rfl rfl rfl
  refine ⟨?_, h.1⟩
  rw [h.2.2.1]
  decide

end TaskHandlerTheorems

section AgentTheorems

/-- Claim C2: on an agent status update (a body that does not itself carry
a startedWorkingAt field), for an agent satisfying the reachable-state
invariant that a busy agent has a truthy startedWorkingAt: a transition
from a non-busy label to a busy label stamps startedWorkingAt with the
current time; a busy-to-busy transition leaves it unchanged; a transition
to Idle or Standby clears it. -/
theorem C2_agent_started_working_at (now : String) (a : Agent)
    (b : AgentBody) (hb : b.startedWorkingAt = none)
    (hinv : (a.status).getD "Idle" ∈ working_statuses →
      isFalsyOpt a.startedWorkingAt = false) :
    (∀ ns, b.status = some ns → ns ∈ working_statuses →
      (a.status).getD "Idle" ∉ working_statuses →
      (update_agent_record now b a).startedWorkingAt = some now)
    ∧ (∀ ns, b.status = some ns → ns ∈ working_statuses →
      (a.status).getD "Idle" ∈ working_statuses →
      (update_agent_record now b a).startedWorkingAt = a.startedWorkingAt)
    ∧ (∀ ns, b.status = some ns → (ns = "Idle" ∨ ns = "Standby") →
      (update_agent_record now b a).startedWorkingAt = none) := by
  refine ⟨?_, ?_, ?_⟩
  · intro ns hns hw hold
    simp only [update_agent_record, hns, Agent.applyBody, hb, mergeOpt]
    rw [if_pos hw, if_pos (Or.inl hold)]
  · intro ns hns hw hold
    have hfal := hinv hold
    simp only [update_agent_record, hns, Agent.applyBody, hb, mergeOpt]
    rw [if_pos hw, if_neg (by
      rintro (h | h)
      · exact h hold
      · rw [hfal] at h
        exact Bool.false_ne_true h)]
  · intro ns hns hor
    simp only [update_agent_record, hns, Agent.applyBody, hb, mergeOpt]
    rw [if_neg (by rcases hor with h | h <;> subst h <;> decide),
      if_pos hor]

/-- Witness for C2: an idle agent moved to Working gets stamped. -/
theorem C2_witness :
    (update_agent_record "2026-10-12T00:00:00Z" { status := some "Working" }
      { id := "a1", status := some "Idle" }).startedWorkingAt
      = some "2026-10-12T00:00:00Z" := by
  have h := C2_agent_started_working_at "2026-10-12T00:00:00Z"
    { id := "a1", status := some "Idle" } { status := some "Working" }
    rfl (by decide)
  exact h.1 "Working" rfl (by decide) (by decide)

/-- Supporting fact for the C2 invariant hypothesis: the invariant that a
busy agent carries a truthy startedWorkingAt is preserved by every status
update whose body does not itself carry a startedWorkingAt field, given a
truthy clock value. -/
theorem agent_busy_invariant_preserved (now : String) (a : Agent)
    (b : AgentBody) (hb : b.startedWorkingAt = none)
    (hnow : now ≠ "")
    (hinv : (a.status).getD "Idle" ∈ working_statuses →
      isFalsyOpt a.startedWorkingAt = false) :
    ((update_agent_record now b a).status).getD "Idle" ∈ working_statuses →
      isFalsyOpt (update_agent_record now b a).startedWorkingAt = false := by
  have hnow2 : isFalsyOpt (some now) = false := by
    simp [isFalsyOpt, hnow]
  rcases hstat : b.status with _ | ns
  · simp only [update_agent_record, hstat, Agent.applyBody, hb, mergeOpt]
    exact hinv
  · simp only [update_agent_record, hstat, Agent.applyBody, hb, mergeOpt]
    by_cases hw : ns ∈ working_statuses
    · rw [if_pos hw]
      by_cases hc : (a.status).getD "Idle" ∉ working_statuses
          ∨ isFalsyOpt a.startedWorkingAt
      · rw [if_pos hc]
        intro _
        exact hnow2
      · rw [if_neg hc]
        intro _
        push_neg at hc
        exact hinv hc.1
    · rw [if_neg hw]
      by_cases hc : ns = "Idle" ∨ ns = "Standby"
      · rw [if_pos hc]
        intro habs
        simp only [Option.getD_some] at habs
        exact absurd habs hw
      · rw [if_neg hc]
        intro habs
        simp only [Option.getD_some] at habs
        exact absurd habs hw

end AgentTheorems

section StampOnceTheorems

/-- For a stamp that is never the empty string, Python falsiness is
exactly absence. -/
lemma isFalsy_iff (o : Option String) (h : o ≠ some "") :
    isFalsyOpt o = true ↔ o = none := by
  cases o with
  | none => simp [isFalsyOpt]
  | some s =>
    simp only [isFalsyOpt, decide_eq_true_eq]
    constructor
    · intro hse
      subst hse
      exact absurd rfl h
    · intro habs
      exact absurd habs (Option.some_ne_none s)

lemma mergeOpt_none (o : Option String) : mergeOpt none o = o := rfl

lemma mergeOpt_some (v : String) (o : Option String) :
    mergeOpt (some v) o = some v := rfl

/-- The update of a matching task is the merge of the stamped body over a
task that differs from the original at most in completedBy. -/
lemma update_record_proj (now : String) (b : Body) (t : Task) :
    (update_task_record now b t).status
        = mergeOpt (stamp_timestamps now t b).status t.status
    ∧ (update_task_record now b t).startedAt
        = mergeOpt (stamp_timestamps now t b).startedAt t.startedAt
    ∧ (update_task_record now b t).completedAt
        = mergeOpt (stamp_timestamps now t b).completedAt t.completedAt := by
  unfold update_task_record
  by_cases hcb : (is_done_transition t b && (b.completedBy).isSome) = true
  · rw [if_pos hcb]
    exact ⟨rfl, rfl, rfl⟩
  · rw [if_neg hcb]
    exact ⟨rfl, rfl, rfl⟩

/-- A body without a status leaves the stamping untouched. -/
lemma stamp_timestamps_none (now : String) (t : Task) (b : Body)
    (hstat : b.status = none) : stamp_timestamps now t b = b := by
  simp [stamp_timestamps, hstat]

/-- Field values of the stamped body when the body carries a status. -/
lemma stamp_timestamps_some (now : String) (t : Task) (b : Body)
    (ns : String) (hstat : b.status = some ns) :
    (stamp_timestamps now t b).status = some ns
    ∧ (stamp_timestamps now t b).startedAt =
        (if (¬ns.isEmpty ∧ t.status ≠ some ns)
            ∧ ns = "in-progress" ∧ isFalsyOpt t.startedAt
         then some now else b.startedAt)
    ∧ (stamp_timestamps now t b).completedAt =
        (if (¬ns.isEmpty ∧ t.status ≠ some ns)
            ∧ ¬(ns = "in-progress" ∧ isFalsyOpt t.startedAt)
            ∧ (ns = "done" ∨ ns = "archive") ∧ isFalsyOpt t.completedAt
         then some now else b.completedAt) := by
  simp only [stamp_timestamps, hstat]
  by_cases h1 : ¬ns.isEmpty ∧ t.status ≠ some ns
  · rw [if_pos h1]
    by_cases h2 : ns = "in-progress" ∧ isFalsyOpt t.startedAt = true
    · rw [if_pos h2]
      refine ⟨rfl, ?_, ?_⟩
      · rw [if_pos ⟨h1, h2⟩]
      · rw [if_neg (fun hc => hc.2.1 h2)]
    · rw [if_neg h2]
      by_cases h3 : (ns = "done" ∨ ns = "archive")
          ∧ isFalsyOpt t.completedAt = true
      · rw [if_pos h3]
        refine ⟨rfl, ?_, ?_⟩
        · rw [if_neg (fun hc => h2 hc.2)]
        · rw [if_pos ⟨h1, h2, h3⟩]
      · rw [if_neg h3]
        refine ⟨hstat, ?_, ?_⟩
        · rw [if_neg (fun hc => h2 hc.2)]
        · rw [if_neg (fun hc => h3 hc.2.2)]
  · rw [if_neg h1]
    refine ⟨hstat, ?_, ?_⟩
    · rw [if_neg (fun hc => h1 hc.1)]
    · rw [if_neg (fun hc => h1 hc.1)]

/-- One update step, body without status: the three tracked fields are
unchanged when the body carries no explicit timestamps. -/
lemma update_record_fields_none (now : String) (b : Body) (t : Task)
    (hstat : b.status = none) (hb1 : b.startedAt = none)
    (hb2 : b.completedAt = none) :
    (update_task_record now b t).status = t.status
    ∧ (update_task_record now b t).startedAt = t.startedAt
    ∧ (update_task_record now b t).completedAt = t.completedAt := by
  obtain ⟨p1, p2, p3⟩ := update_record_proj now b t
  rw [stamp_timestamps_none now t b hstat] at p1 p2 p3
  exact ⟨by rw [p1, hstat, mergeOpt_none], by rw [p2, hb1, mergeOpt_none],
    by rw [p3, hb2, mergeOpt_none]⟩

/-- One update step, body with status `ns` and no explicit timestamps:
status becomes `ns`, and the two stamps change exactly per the
first-transition rule of the code. -/
lemma update_record_fields_some (now : String) (b : Body) (t : Task)
    (ns : String) (hstat : b.status = some ns) (hb1 : b.startedAt = none)
    (hb2 : b.completedAt = none) (hs : t.startedAt ≠ some "")
    (hc : t.completedAt ≠ some "") :
    (update_task_record now b t).status = some ns
    ∧ (update_task_record now b t).startedAt =
        (if ns = "in-progress" ∧ t.status ≠ some ns ∧ t.startedAt = none
         then some now else t.startedAt)
    ∧ (update_task_record now b t).completedAt =
        (if (ns = "done" ∨ ns = "archive") ∧ t.status ≠ some ns
            ∧ t.completedAt = none
         then some now else t.completedAt) := by
  obtain ⟨p1, p2, p3⟩ := update_record_proj now b t
  obtain ⟨q1, q2, q3⟩ := stamp_timestamps_some now t b ns hstat
  rw [hb1] at q2
  rw [hb2] at q3
  refine ⟨by rw [p1, q1, mergeOpt_some], ?_, ?_⟩
  · rw [p2, q2]
    by_cases hS : ns = "in-progress" ∧ t.status ≠ some ns
        ∧ t.startedAt = none
    · rw [if_pos (show (¬ns.isEmpty ∧ t.status ≠ some ns)
          ∧ ns = "in-progress" ∧ isFalsyOpt t.startedAt = true from
          ⟨⟨by rw [hS.1]; decide, hS.2.1⟩, hS.1, by rw [hS.2.2]; rfl⟩),
        mergeOpt_some, if_pos hS]
    · rw [if_neg (fun hc2 =>
          hS ⟨hc2.2.1, hc2.1.2, (isFalsy_iff _ hs).mp hc2.2.2⟩),
        mergeOpt_none, if_neg hS]
  · rw [p3, q3]
    by_cases hC : (ns = "done" ∨ ns = "archive") ∧ t.status ≠ some ns
        ∧ t.completedAt = none
    · have hnip : ¬(ns = "in-progress" ∧ isFalsyOpt t.startedAt = true) := by
        rintro ⟨hip, -⟩
        rcases hC.1 with h | h <;> rw [h] at hip <;>
          exact absurd hip (by decide)
      rw [if_pos (show (¬ns.isEmpty ∧ t.status ≠ some ns)
          ∧ ¬(ns = "in-progress" ∧ isFalsyOpt t.startedAt = true)
          ∧ (ns = "done" ∨ ns = "archive") ∧ isFalsyOpt t.completedAt = true
          from ⟨⟨by rcases hC.1 with h | h <;> rw [h] <;> decide, hC.2.1⟩,
            hnip, hC.1, by rw [hC.2.2]; rfl⟩),
        mergeOpt_some, if_pos hC]
    · rw [if_neg (fun hc2 =>
          hC ⟨hc2.2.2.1, hc2.1.2, (isFalsy_iff _ hc).mp hc2.2.2.2⟩),
        mergeOpt_none, if_neg hC]

/-- Claim C1: over any sequence of partial updates whose bodies do not
themselves carry startedAt or completedAt fields, and whose clock values
are nonempty, the startedAt a task ends with is exactly the stamp of the
first transition into in-progress (kept forever once set), and the
completedAt is exactly the stamp of the first transition into done or
archive (kept forever once set, so re-entering done later does not reset
it).  The initial task may carry stamps back-filled at creation. -/
theorem C1_stamps_set_once (t : Task) (ops : List (String × Body))
    (hs : t.startedAt ≠ some "") (hc : t.completedAt ≠ some "")
    (hops : ∀ p ∈ ops, p.1 ≠ "" ∧ p.2.startedAt = none
      ∧ p.2.completedAt = none) :
    (run_task_updates ops t).startedAt
        = spec_started_at t.startedAt t.status ops
    ∧ (run_task_updates ops t).completedAt
        = spec_completed_at t.completedAt t.status ops := by
  induction ops generalizing t with
  | nil => exact ⟨rfl, rfl⟩
  | cons p ops ih =>
    obtain ⟨now, b⟩ := p
    obtain ⟨hnow, hb1, hb2⟩ := hops _ (List.mem_cons_self _ _)
    have hops2 : ∀ q ∈ ops, q.1 ≠ "" ∧ q.2.startedAt = none
        ∧ q.2.completedAt = none :=
      fun q hq => hops q (List.mem_cons_of_mem _ hq)
    have hnow2 : some now ≠ some "" := by
      intro habs
      injection habs with habs
      exact hnow habs
    rcases hstat : b.status with _ | ns
    · obtain ⟨e1, e2, e3⟩ := update_record_fields_none now b t hstat hb1 hb2
      have hrec := ih (update_task_record now b t) (e2 ▸ hs) (e3 ▸ hc) hops2
      simp only [run_task_updates, spec_started_at, spec_completed_at, hstat]
      exact ⟨by rw [hrec.1, e2, e1], by rw [hrec.2, e3, e1]⟩
    · obtain ⟨e1, e2, e3⟩ :=
        update_record_fields_some now b t ns hstat hb1 hb2 hs hc
      have hs2 : (update_task_record now b t).startedAt ≠ some "" := by
        rw [e2]
        split_ifs
        · exact hnow2
        · exact hs
      have hc2 : (update_task_record now b t).completedAt ≠ some "" := by
        rw [e3]
        split_ifs
        · exact hnow2
        · exact hc
      have hrec := ih (update_task_record now b t) hs2 hc2 hops2
      simp only [run_task_updates, spec_started_at, spec_completed_at, hstat]
      exact ⟨by rw [hrec.1, e2, e1], by rw [hrec.2, e3, e1]⟩

/-- Witness for C1: a task created as todo, moved to in-progress at T1,
to done at T2, back to in-progress at T3 and to done again at T4, keeps
startedAt = T1 and completedAt = T2. -/
theorem C1_witness :
    (run_task_updates
      [("2026-10-02T00:00:00Z", { status := some "in-progress" }),
       ("2026-10-03T00:00:00Z", { status := some "done" }),
       ("2026-10-04T00:00:00Z", { status := some "in-progress" }),
       ("2026-10-05T00:00:00Z", { status := some "done" })]
      (create_task "2026-10-01T00:00:00Z" "t1"
        { status := some "todo", title := some "Report" })).startedAt
      = some "2026-10-02T00:00:00Z"
    ∧ (run_task_updates
        [("2026-10-02T00:00:00Z", { status := some "in-progress" }),
         ("2026-10-03T00:00:00Z", { status := some "done" }),
         ("2026-10-04T00:00:00Z", { status := some "in-progress" }),
         ("2026-10-05T00:00:00Z", { status := some "done" })]
        (create_task "2026-10-01T00:00:00Z" "t1"
          { status := some "todo", title := some "Report" })).completedAt
      = some "2026-10-03T00:00:00Z" := by
  have h := C1_stamps_set_once
    (create_task "2026-10-01T00:00:00Z" "t1"
      { status := some "todo", title := some "Report" })
    [("2026-10-02T00:00:00Z", { status := some "in-progress" }),
     ("2026-10-03T00:00:00Z", { status := some "done" }),
     ("2026-10-04T00:00:00Z", { status := some "in-progress" }),
     ("2026-10-05T00:00:00Z", { status := some "done" })]
    (by decide) (by decide) (by decide)
  refine ⟨h.1.trans ?_, h.2.trans ?_⟩ <;> decide

end StampOnceTheorems

end ServerWs
